import Mathlib

/-!
Shallow embedding of the Shelly switch core (`src/shelly_switch.cpp`) and the
Shelly 2.5 composition logic (`src/Shelly25/shelly_init.cpp`).

Conventions:
* C strings (`char *`) that may be NULL become `Option String`.
* The integer config fields (`svc_type`, `in_mode`, `initial_state`) stay `Int`,
  as in `struct mgos_config_sw`; enum values are the raw integers
  (`InMode`: 0 = Momentary, 1 = Toggle, 2 = Edge, 3 = Detached;
  `InitialState`: 0 = Off, 1 = On, 2 = Last, 3 = Input).
* `auto_off_delay` (a C `double` that is only parsed, stored, compared and
  copied, never computed with in the modelled paths) becomes `Rat`.
* The mgos timer library is modelled by a list of live (armed, not yet fired)
  timer ids plus a fresh-id counter; `mgos_set_timer` appends a fresh id,
  `mgos_clear_timer` removes one.
* Side effects that the claims observe are counted: `saves` counts calls to
  `mgos_sys_config_save`, `notifies` counts `RaiseEvent` calls on the
  registered notification characteristics (one counted event stands for the
  one synchronous pass over `state_notify_chars_`).
-/

namespace Shelly

/-- The persisted per-switch configuration, `struct mgos_config_sw`.
Field `state` is the persisted last-known output level; `enable` gates `Init`. -/
structure SwCfg where
  name : Option String
  svc_type : Int
  in_mode : Int
  initial_state : Int
  auto_off : Bool
  auto_off_delay : Rat
  state : Bool
  enable : Bool
deriving DecidableEq, Repr

/-- The JSON payload handed to `ShellySwitch::SetConfig`: each key may be
absent, in which case `json_scanf` leaves the corresponding candidate field
untouched. -/
structure SwConfigPayload where
  name : Option String
  svc_type : Option Int
  in_mode : Option Int
  initial_state : Option Int
  auto_off : Option Bool
  auto_off_delay : Option Rat
deriving DecidableEq, Repr

/-- Result of `SetConfig`. `err cfg msg` carries the value of `*cfg_` at the
error return (the C++ returns before the commit section, so it will be the old
config) and no restart flag, because `*restart_required` is only assigned in
the commit section. `ub` marks the one undefined-behavior path of the source:
the commit section calls `strcmp(cfg_->name, cfg.name)` with `cfg.name == NULL`
whenever the stored name is non-NULL but the payload had no `name` key. -/
inductive SCResult
  | ub
  | err (cfg : SwCfg) (msg : String)
  | ok (cfg : SwCfg) (restart_required : Bool)
deriving DecidableEq, Repr

/-- The tail of the commit section of `ShellySwitch::SetConfig`
(lines 109-123): `svc_type`, `in_mode` (with the detached-crossing restart
rule, Detached = 3), then the unconditionally copied `initial_state`,
`auto_off`, `auto_off_delay`. `cfg1` and `r1` are the state of `*cfg_` and
`*restart_required` after the name step. -/
def commitRest (cfg1 : SwCfg) (r1 : Bool) (cand : SwCfg) : SCResult :=
  let cfg2 := if cfg1.svc_type = cand.svc_type then cfg1
              else { cfg1 with svc_type := cand.svc_type }
  let r2 := if cfg1.svc_type = cand.svc_type then r1 else true
  let r3 := if cfg2.in_mode = cand.in_mode then r2
            else if cfg2.in_mode = 3 ∨ cand.in_mode = 3 then true else r2
  let cfg3 := if cfg2.in_mode = cand.in_mode then cfg2
              else { cfg2 with in_mode := cand.in_mode }
  .ok { cfg3 with
        initial_state := cand.initial_state
        auto_off := cand.auto_off
        auto_off_delay := cand.auto_off_delay } r3

/-- The commit section of `ShellySwitch::SetConfig` (lines 103-123), starting
from the name step: `*restart_required = false`, then
`if (cfg_->name != nullptr && strcmp(cfg_->name, cfg.name) != 0)` set the name
and require restart. `strcmp` against a NULL candidate name is undefined
behavior, returned as `.ub`. -/
def commitCfg (old cand : SwCfg) : SCResult :=
  match old.name, cand.name with
  | some _, none => .ub
  | some onm, some cnm =>
      if cnm = onm then commitRest old false cand
      else commitRest { old with name := some cnm } true cand
  | none, _ => commitRest old false cand

/-- The name validity test of `SetConfig` line 86:
`cfg.name != nullptr && strlen(cfg.name) > 64`. -/
def nameTooLong : Option String → Bool
  | some n => 64 < n.length
  | none => false

/-- `ShellySwitch::SetConfig` (lines 75-124): build the candidate as a copy of
the current config with `name` cleared to NULL, overwrite the fields present in
the payload, validate (name length, `svc_type` ∈ [-1,2], `in_mode` ∈ [0,3],
`initial_state` ∈ [0,3] — checked twice in the source, the second time after
the `auto_off = (auto_off != 0)` coercion, which is the identity on the 0/1
values `%B` produces), then commit. -/
def setConfig (old : SwCfg) (p : SwConfigPayload) : SCResult :=
  let cand : SwCfg :=
    { old with
      name := p.name
      svc_type := p.svc_type.getD old.svc_type
      in_mode := p.in_mode.getD old.in_mode
      initial_state := p.initial_state.getD old.initial_state
      auto_off := p.auto_off.getD old.auto_off
      auto_off_delay := p.auto_off_delay.getD old.auto_off_delay }
  if nameTooLong cand.name then
    .err old "invalid name (too long, max 64)"
  else if cand.svc_type < -1 ∨ 2 < cand.svc_type then
    .err old "invalid svc_type"
  else if cand.in_mode < 0 ∨ 3 < cand.in_mode then
    .err old "invalid in_mode"
  else if cand.initial_state < 0 ∨ 3 < cand.initial_state then
    .err old "invalid initial_state"
  else if cand.initial_state < 0 ∨ 3 < cand.initial_state then
    .err old "invalid initial_state"
  else commitCfg old cand

/-- Runtime state of one `ShellySwitch` together with the slice of the mgos
runtime it touches. `out` is the Output's level (`out_->GetState()`), `live`
the armed one-shot mgos timers (ids), `handle` the switch's
`auto_off_timer_id_` (`none` = `MGOS_INVALID_TIMER_ID`), `nextId` the next
fresh timer id, `saves` the number of `mgos_sys_config_save` calls and
`notifies` the number of state-change notification rounds over
`state_notify_chars_`. -/
structure SwState where
  cfg : SwCfg
  out : Bool
  live : List Nat
  handle : Option Nat
  nextId : Nat
  saves : Nat
  notifies : Nat
deriving DecidableEq, Repr

/-- `ShellySwitch::SetStateInternal` (lines 161-188): read the Output's level,
write the new level, persist `cfg.state` when it differs from the new level,
and on a genuine level change notify observers, cancel any outstanding
auto-off timer, and (if `auto_off` is configured and this call is not itself
the auto-off firing) arm a fresh auto-off timer. The `source` string is only
logged. -/
def setStateInternal (s : SwState) (new_state : Bool) (_source : String)
    (is_auto_off : Bool) : SwState :=
  let cur_state := s.out
  let s1 := { s with out := new_state }
  let s2 := if s1.cfg.state ≠ new_state then
      { s1 with cfg := { s1.cfg with state := new_state }, saves := s1.saves + 1 }
    else s1
  if new_state = cur_state then s2
  else
    let s3 := { s2 with notifies := s2.notifies + 1 }
    let s4 := match s3.handle with
      | some id => { s3 with live := s3.live.erase id, handle := none }
      | none => s3
    if s4.cfg.auto_off ∧ is_auto_off = false then
      { s4 with
        live := s4.live ++ [s4.nextId]
        handle := some s4.nextId
        nextId := s4.nextId + 1 }
    else s4

/-- `ShellySwitch::SetState` (lines 157-159). -/
def setState (s : SwState) (new_state : Bool) (source : String) : SwState :=
  setStateInternal s new_state source false

/-- `ShellySwitch::AutoOffTimerCB` (lines 191-198): clear the stored timer id,
then re-check `cfg.auto_off` — only if still enabled force the level to false
with `is_auto_off = true`. -/
def autoOffTimerCB (s : SwState) : SwState :=
  let s1 := { s with handle := none }
  if s1.cfg.auto_off then setStateInternal s1 false "auto_off" true else s1

/-- Expiry of the armed one-shot mgos timer: the fired timer leaves the live
set (it was armed with `repeat = 0`) and mgos invokes `AutoOffTimerCB`. When no
timer is armed nothing can fire. -/
def fireTimer (s : SwState) : SwState :=
  match s.handle with
  | none => s
  | some id => autoOffTimerCB { s with live := s.live.erase id }

/-- Input event kinds; `ShellySwitch::InputEventHandler` only reacts to
`Input::Event::kChange`. -/
inductive InputEvent
  | change
  | other
deriving DecidableEq, Repr

/-- `ShellySwitch::InputEventHandler` (lines 200-218): on a `Change` event,
dispatch on `cfg.in_mode`: Momentary (0) toggles on a transition to true,
Toggle (1) copies the input level, Edge (2) toggles on every change, Detached
(3) does nothing (as does any value outside the enum, which matches no case of
the C++ `switch`). -/
def inputEventHandler (s : SwState) (ev : InputEvent) (state : Bool) : SwState :=
  if ev ≠ InputEvent.change then s
  else match s.cfg.in_mode with
    | 0 => if state then setState s (! s.out) "button" else s
    | 1 => setState s state "switch"
    | 2 => setState s (! s.out) "button"
    | _ => s

/-- `ShellySwitch::Init` (lines 126-155), state part: when enabled, apply the
configured startup policy (Off = 0, On = 1, Last = 2, Input = 3; the handler
registration has no state effect here). `in_present`/`in_level` model the
optional Input and its current level. -/
def initSwitch (s : SwState) (in_present : Bool) (in_level : Bool) : SwState :=
  if s.cfg.enable = false then s
  else match s.cfg.initial_state with
    | 0 => setState s false "init"
    | 1 => setState s true "init"
    | 2 => setState s s.cfg.state "init"
    | 3 => if in_present ∧ s.cfg.in_mode = 1 then setState s in_level "init" else s
    | _ => s

/-- The operations whose interleavings the timer claims quantify over:
remote `SetState` calls, input `Change` events, timer expiry, and the live
commit of a config change to `auto_off` (the `SetConfig` field that governs
the timer). -/
inductive Op
  | setOut (v : Bool)
  | inputChange (level : Bool)
  | fire
  | setAutoOff (b : Bool)
deriving DecidableEq, Repr

def step (s : SwState) : Op → SwState
  | .setOut v => setState s v "HAP"
  | .inputChange l => inputEventHandler s .change l
  | .fire => fireTimer s
  | .setAutoOff b => { s with cfg := { s.cfg with auto_off := b } }

def run (s : SwState) (ops : List Op) : SwState :=
  ops.foldl step s

/-- Timer well-formedness: the armed mgos timers are exactly the one the
switch's `auto_off_timer_id_` points to (none, or a single live one). -/
def TimerInv (s : SwState) : Prop :=
  s.live = s.handle.toList

instance (s : SwState) : Decidable (TimerInv s) := by
  unfold TimerInv; infer_instance

/-- One `CreateHAPSwitch` invocation: the switch slot id and the `to_pri_acc`
flag it was passed. -/
structure HAPSwitchCall where
  id : Nat
  toPriAcc : Bool
deriving DecidableEq, Repr

/-- Observable effect of the Shelly 2.5 composition: the `comps` component
vector (switch slot ids), the accessory records in creation order, and the raw
`CreateHAPSwitch` call trace. -/
structure CompState where
  comps : List Nat
  accs : List HAPSwitchCall
  calls : List HAPSwitchCall
deriving DecidableEq, Repr

def compInit : CompState := { comps := [], accs := [], calls := [] }

/-- Modelled from the spec: `CreateHAPSwitch` (declared in `shelly_main.hpp`,
body not among the sources) creates the switch component for slot `id` and its
accessory exposure, flagged with `to_pri_acc` when the switch is to attach to
the primary accessory object. We model it as appending the component id to
`comps` and one accessory record, in call order, to `accs`, and record the
call itself. -/
def createHAPSwitch (id : Nat) (to_pri_acc : Bool) (st : CompState) : CompState :=
  { st with
    comps := st.comps ++ [id]
    accs := st.accs ++ [⟨id, to_pri_acc⟩]
    calls := st.calls ++ [⟨id, to_pri_acc⟩] }

/-- `CreateComponents` of `src/Shelly25/shelly_init.cpp` (lines 42-62):
`compat_20` holds when the legacy HAP layout is configured and neither
switch has `in_mode == 3` (Detached). Without it, switches 1 and 2 are created
independently with `to_pri_acc = false`; with it, switch 2 then switch 1 are
created with `to_pri_acc = true` and the `comps` vector is reversed. -/
def createComponents (legacy_hap_layout : Bool) (sw1_in_mode sw2_in_mode : Int)
    (st : CompState) : CompState :=
  let compat_20 := legacy_hap_layout ∧ sw1_in_mode ≠ 3 ∧ sw2_in_mode ≠ 3
  if ¬ compat_20 then
    createHAPSwitch 2 false (createHAPSwitch 1 false st)
  else
    let st1 := createHAPSwitch 1 true (createHAPSwitch 2 true st)
    { st1 with comps := st1.comps.reverse }

section Lemmas

theorem setStateInternal_out (s : SwState) (v : Bool) (src : String) (ao : Bool) :
    (setStateInternal s v src ao).out = v := by
  obtain ⟨⟨nm, svc, im, ini, aoff, ad, st, en⟩, out, live, hd, nid, sv, nt⟩ := s
  cases st <;> cases out <;> cases v <;> cases aoff <;> cases ao <;> cases hd <;>
    simp [setStateInternal]

theorem setStateInternal_cfg (s : SwState) (v : Bool) (src : String) (ao : Bool) :
    (setStateInternal s v src ao).cfg = { s.cfg with state := v } := by
  obtain ⟨⟨nm, svc, im, ini, aoff, ad, st, en⟩, out, live, hd, nid, sv, nt⟩ := s
  cases st <;> cases out <;> cases v <;> cases aoff <;> cases ao <;> cases hd <;>
    simp [setStateInternal]

theorem setStateInternal_notifies (s : SwState) (v : Bool) (src : String) (ao : Bool) :
    (setStateInternal s v src ao).notifies =
      if v = s.out then s.notifies else s.notifies + 1 := by
  obtain ⟨⟨nm, svc, im, ini, aoff, ad, st, en⟩, out, live, hd, nid, sv, nt⟩ := s
  cases st <;> cases out <;> cases v <;> cases aoff <;> cases ao <;> cases hd <;>
    simp [setStateInternal]

theorem setStateInternal_saves (s : SwState) (v : Bool) (src : String) (ao : Bool) :
    (setStateInternal s v src ao).saves =
      if s.cfg.state = v then s.saves else s.saves + 1 := by
  obtain ⟨⟨nm, svc, im, ini, aoff, ad, st, en⟩, out, live, hd, nid, sv, nt⟩ := s
  cases st <;> cases out <;> cases v <;> cases aoff <;> cases ao <;> cases hd <;>
    simp [setStateInternal]

theorem setStateInternal_noop (s : SwState) (v : Bool) (src : String) (ao : Bool)
    (h : v = s.out) :
    (setStateInternal s v src ao).live = s.live ∧
    (setStateInternal s v src ao).handle = s.handle ∧
    (setStateInternal s v src ao).notifies = s.notifies := by
  obtain ⟨⟨nm, svc, im, ini, aoff, ad, st, en⟩, out, live, hd, nid, sv, nt⟩ := s
  simp only at h
  subst h
  cases st <;> cases v <;> cases aoff <;> cases ao <;> cases hd <;>
    simp [setStateInternal]

theorem setStateInternal_timerInv (s : SwState) (v : Bool) (src : String) (ao : Bool)
    (h : TimerInv s) : TimerInv (setStateInternal s v src ao) := by
  obtain ⟨⟨nm, svc, im, ini, aoff, ad, st, en⟩, out, live, hd, nid, sv, nt⟩ := s
  cases hd <;> simp [TimerInv, Option.toList] at h <;> subst h <;>
    cases st <;> cases out <;> cases v <;> cases aoff <;> cases ao <;>
    simp [setStateInternal, TimerInv, Option.toList, List.erase]

theorem inputEventHandler_timerInv (s : SwState) (ev : InputEvent) (l : Bool)
    (h : TimerInv s) : TimerInv (inputEventHandler s ev l) := by
  unfold inputEventHandler setState
  split
  · exact h
  · split
    · split
      · exact setStateInternal_timerInv _ _ _ _ h
      · exact h
    · exact setStateInternal_timerInv _ _ _ _ h
    · exact setStateInternal_timerInv _ _ _ _ h
    · exact h

theorem fireTimer_timerInv (s : SwState) (h : TimerInv s) : TimerInv (fireTimer s) := by
  cases hh : s.handle with
  | none => simpa [fireTimer, hh] using h
  | some id =>
      have hl : s.live = [id] := by simpa [TimerInv, hh, Option.toList] using h
      have hstep : fireTimer s = autoOffTimerCB { s with live := s.live.erase id } := by
        simp only [fireTimer]
        rw [hh]
      rw [hstep, hl]
      have herase : [id].erase id = ([] : List Nat) := by simp
      rw [herase]
      unfold autoOffTimerCB
      dsimp only
      split
      · apply setStateInternal_timerInv
        simp [TimerInv, Option.toList]
      · simp [TimerInv, Option.toList]

theorem step_timerInv (s : SwState) (op : Op) (h : TimerInv s) : TimerInv (step s op) := by
  cases op with
  | setOut v => exact setStateInternal_timerInv s v "HAP" false h
  | inputChange l => exact inputEventHandler_timerInv _ _ _ h
  | fire => exact fireTimer_timerInv _ h
  | setAutoOff b => simpa [TimerInv, step] using h

theorem run_timerInv (s : SwState) (ops : List Op) (h : TimerInv s) :
    TimerInv (run s ops) := by
  induction ops generalizing s with
  | nil => exact h
  | cons op rest ih => exact ih (step s op) (step_timerInv s op h)

theorem setStateInternal_auto_off_noarm (s : SwState) (v : Bool) (src : String)
    (h : s.handle = none) :
    (setStateInternal s v src true).handle = none ∧
    (setStateInternal s v src true).live = s.live := by
  obtain ⟨⟨nm, svc, im, ini, aoff, ad, st, en⟩, out, live, hd, nid, sv, nt⟩ := s
  simp only at h
  subst h
  cases st <;> cases out <;> cases v <;> cases aoff <;> simp [setStateInternal]

end Lemmas

/-- A representative switch configuration (Toggle input mode, auto-off
enabled with a 5 second delay, enabled, persisted state false). -/
def exCfg : SwCfg :=
  { name := some "Shelly SW", svc_type := 0, in_mode := 1, initial_state := 0,
    auto_off := true, auto_off_delay := 5, state := false, enable := true }

/-- A quiescent runtime state: output off, no timer armed, no side effects
recorded yet. -/
def exSt : SwState :=
  { cfg := exCfg, out := false, live := [], handle := none, nextId := 0,
    saves := 0, notifies := 0 }

/-- A boot-time state as the constructor leaves it when the persisted
`cfg.state` is `true` but the output pin still has its hardware default
`false`, with `initial_state = Off` and auto-off disabled. -/
def exC1 : SwState :=
  { cfg := { exCfg with state := true, auto_off := false }, out := false,
    live := [], handle := none, nextId := 0, saves := 0, notifies := 0 }

/-- A state with the auto-off timer armed (id 7) and auto-off still enabled. -/
def exArmed : SwState :=
  { cfg := exCfg, out := true, live := [7], handle := some 7, nextId := 8,
    saves := 0, notifies := 0 }

/-- Like `exArmed`, but `auto_off` was disabled while the timer was pending. -/
def exArmedOff : SwState :=
  { cfg := { exCfg with auto_off := false }, out := true, live := [7],
    handle := some 7, nextId := 8, saves := 0, notifies := 0 }

/-- C1, counterexample: a call to `SetStateInternal` with the new level equal
to the Output's current level can still perform a persistence write. In the
boot state `exC1` (output low, persisted `cfg.state` true), the call
`SetStateInternal(false, "init", false)` — which is exactly what
`Init` issues under the `initial_state = Off` policy, last conjunct — leaves
the output, observers and timers untouched yet saves the configuration,
contradicting the claimed "no persistence write occurs". -/
theorem noop_persistence_counterexample :
    (setStateInternal exC1 false "init" false).out = exC1.out ∧
    (setStateInternal exC1 false "init" false).notifies = exC1.notifies ∧
    (setStateInternal exC1 false "init" false).live = exC1.live ∧
    (setStateInternal exC1 false "init" false).handle = exC1.handle ∧
    (setStateInternal exC1 false "init" false).saves = exC1.saves + 1 ∧
    initSwitch exC1 true false = setStateInternal exC1 false "init" false := by
  decide

/-- C1, amended: when the new level equals the Output's current level, no
observer is notified and no timer is armed or cancelled, and the output is
unchanged; but the persisted `cfg.state` is updated (with one persistence
write) if and only if it differs from the new level — not if and only if the
observable output changes, since `cfg.state` can be out of sync with the
Output (e.g. at `Init`). -/
theorem noop_effects (s : SwState) (v : Bool) (src : String) (ao : Bool)
    (h : v = s.out) :
    (setStateInternal s v src ao).out = s.out ∧
    (setStateInternal s v src ao).notifies = s.notifies ∧
    (setStateInternal s v src ao).live = s.live ∧
    (setStateInternal s v src ao).handle = s.handle ∧
    (setStateInternal s v src ao).cfg = { s.cfg with state := v } ∧
    (setStateInternal s v src ao).saves =
      (if s.cfg.state = v then s.saves else s.saves + 1) := by
  obtain ⟨hlive, hhandle, hnot⟩ := setStateInternal_noop s v src ao h
  exact ⟨by rw [setStateInternal_out, h], hnot, hlive, hhandle,
    setStateInternal_cfg s v src ao, setStateInternal_saves s v src ao⟩

theorem noop_effects_witness :
    (setStateInternal exC1 false "init" false).out = exC1.out ∧
    (setStateInternal exC1 false "init" false).notifies = exC1.notifies ∧
    (setStateInternal exC1 false "init" false).live = exC1.live ∧
    (setStateInternal exC1 false "init" false).handle = exC1.handle ∧
    (setStateInternal exC1 false "init" false).cfg =
      { exC1.cfg with state := false } ∧
    (setStateInternal exC1 false "init" false).saves =
      (if exC1.cfg.state = false then exC1.saves else exC1.saves + 1) :=
  noop_effects exC1 false "init" false rfl

/-- C5: along any sequence of `SetState` calls, input `Change` events, timer
expiries and live `auto_off` config changes, a timer-well-formed switch stays
timer-well-formed: at most one auto-off timer is armed at any time, and when
the switch holds a timer handle the armed timer is exactly that one (each
genuine transition cancels the outstanding timer before possibly arming the
next, so only the latest arm survives). -/
theorem auto_off_timer_unique (s : SwState) (ops : List Op) (h : TimerInv s) :
    (run s ops).live.length ≤ 1 ∧
    (∀ id, (run s ops).handle = some id → (run s ops).live = [id]) ∧
    ((run s ops).handle = none → (run s ops).live = []) := by
  have hinv : (run s ops).live = (run s ops).handle.toList := run_timerInv s ops h
  refine ⟨?_, ?_, ?_⟩
  · rw [hinv]; cases (run s ops).handle <;> simp [Option.toList]
  · intro id hid; rw [hinv, hid]; simp [Option.toList]
  · intro hid; rw [hinv, hid]; simp [Option.toList]

theorem auto_off_timer_unique_witness :
    (run exSt [.setOut true, .setOut false, .setOut true]).live.length ≤ 1 ∧
    (∀ id, (run exSt [.setOut true, .setOut false, .setOut true]).handle = some id →
        (run exSt [.setOut true, .setOut false, .setOut true]).live = [id]) ∧
    ((run exSt [.setOut true, .setOut false, .setOut true]).handle = none →
        (run exSt [.setOut true, .setOut false, .setOut true]).live = []) :=
  auto_off_timer_unique exSt [.setOut true, .setOut false, .setOut true] (by decide)

/-- C6: at timer expiry `cfg.auto_off` is re-checked. If no timer is armed
nothing fires; if `auto_off` was disabled while the timer was pending, the
expiry changes no output, raises no notification and writes no persistence; if
`auto_off` is still enabled, the level is forced to `false` through the apply
routine with `is_auto_off = true`, which leaves no armed timer behind. -/
theorem auto_off_fire_rechecks (s : SwState) (h : TimerInv s) :
    (s.handle = none → fireTimer s = s) ∧
    (s.cfg.auto_off = false →
        (fireTimer s).out = s.out ∧ (fireTimer s).notifies = s.notifies ∧
        (fireTimer s).saves = s.saves ∧ (fireTimer s).cfg = s.cfg) ∧
    (∀ id, s.handle = some id → s.cfg.auto_off = true →
        (fireTimer s).out = false ∧ (fireTimer s).handle = none ∧
        (fireTimer s).live = []) := by
  refine ⟨?_, ?_, ?_⟩
  · intro hh
    simp only [fireTimer]
    rw [hh]
  · intro ha
    cases hh : s.handle with
    | none =>
        have : fireTimer s = s := by simp only [fireTimer]; rw [hh]
        rw [this]
        exact ⟨rfl, rfl, rfl, rfl⟩
    | some id =>
        have hstep : fireTimer s = autoOffTimerCB { s with live := s.live.erase id } := by
          simp only [fireTimer]
          rw [hh]
        rw [hstep]
        unfold autoOffTimerCB
        dsimp only
        rw [if_neg (by simp [ha])]
        exact ⟨rfl, rfl, rfl, rfl⟩
  · intro id hh ha
    have hl : s.live = [id] := by
      have hinv : s.live = s.handle.toList := h
      rw [hinv, hh]
      rfl
    have hstep : fireTimer s = autoOffTimerCB { s with live := s.live.erase id } := by
      simp only [fireTimer]
      rw [hh]
    rw [hstep, hl]
    have herase : [id].erase id = ([] : List Nat) := by simp
    rw [herase]
    unfold autoOffTimerCB
    dsimp only
    rw [if_pos (by simp [ha])]
    obtain ⟨h1, h2⟩ := setStateInternal_auto_off_noarm
      { cfg := s.cfg, out := s.out, live := [], handle := none,
        nextId := s.nextId, saves := s.saves, notifies := s.notifies }
      false "auto_off" rfl
    exact ⟨setStateInternal_out _ _ _ _, h1, h2⟩

theorem auto_off_fire_rechecks_witness :
    ((fireTimer exArmed).out = false ∧ (fireTimer exArmed).handle = none ∧
        (fireTimer exArmed).live = []) ∧
    ((fireTimer exArmedOff).out = exArmedOff.out ∧
        (fireTimer exArmedOff).notifies = exArmedOff.notifies ∧
        (fireTimer exArmedOff).saves = exArmedOff.saves ∧
        (fireTimer exArmedOff).cfg = exArmedOff.cfg) :=
  ⟨(auto_off_fire_rechecks exArmed (by decide)).2.2 7 rfl rfl,
   (auto_off_fire_rechecks exArmedOff (by decide)).2.1 rfl⟩

section InputSequences

theorem inputEventHandler_mode0_true (s : SwState) (hs : s.cfg.in_mode = 0) :
    inputEventHandler s .change true = setState s (! s.out) "button" := by
  unfold inputEventHandler
  rw [if_neg (by simp), hs]
  rfl

theorem inputEventHandler_mode0_false (s : SwState) (hs : s.cfg.in_mode = 0) :
    inputEventHandler s .change false = s := by
  unfold inputEventHandler
  rw [if_neg (by simp), hs]
  rfl

theorem inputEventHandler_mode1 (s : SwState) (l : Bool) (hs : s.cfg.in_mode = 1) :
    inputEventHandler s .change l = setState s l "switch" := by
  unfold inputEventHandler
  rw [if_neg (by simp), hs]
  rfl

theorem inputEventHandler_mode2 (s : SwState) (l : Bool) (hs : s.cfg.in_mode = 2) :
    inputEventHandler s .change l = setState s (! s.out) "button" := by
  unfold inputEventHandler
  rw [if_neg (by simp), hs]
  rfl

theorem setState_toggle_notifies (s : SwState) (src : String) :
    (setState s (! s.out) src).notifies = s.notifies + 1 := by
  rw [setState, setStateInternal_notifies]
  cases h : s.out <;> simp [h]

theorem setState_in_mode (s : SwState) (v : Bool) (src : String) :
    (setState s v src).cfg.in_mode = s.cfg.in_mode := by
  rw [setState, setStateInternal_cfg]

/-- Delivery of a sequence of input `Change` events carrying the given levels
to `InputEventHandler`. -/
def runChanges (s : SwState) (levels : List Bool) : SwState :=
  levels.foldl (fun t l => inputEventHandler t .change l) s

end InputSequences

/-- A switch in Momentary input mode, output initially low. -/
def exMom : SwState :=
  { exSt with cfg := { exCfg with in_mode := 0 } }

/-- A switch in Edge input mode, output initially low. -/
def exEdge : SwState :=
  { exSt with cfg := { exCfg with in_mode := 2 } }

/-- C7: for the input `Change` sequence false→true→false→true — three change
events carrying the levels true, false, true — Momentary mode toggles the
output exactly twice (only on the two events with level true; the transition
to false is ignored), while Edge mode toggles exactly three times (once per
change event, regardless of direction). -/
theorem input_sequence_toggles (s t : SwState) (hs : s.cfg.in_mode = 0)
    (ht : t.cfg.in_mode = 2) :
    (runChanges s [true, false, true]).notifies = s.notifies + 2 ∧
    (runChanges t [true, false, true]).notifies = t.notifies + 3 := by
  constructor
  · simp only [runChanges, List.foldl]
    rw [inputEventHandler_mode0_true s hs]
    have h1m : (setState s (! s.out) "button").cfg.in_mode = 0 := by
      rw [setState_in_mode]; exact hs
    rw [inputEventHandler_mode0_false _ h1m]
    rw [inputEventHandler_mode0_true _ h1m]
    rw [setState_toggle_notifies, setState_toggle_notifies]
  · simp only [runChanges, List.foldl]
    rw [inputEventHandler_mode2 t true ht]
    have h1m : (setState t (! t.out) "button").cfg.in_mode = 2 := by
      rw [setState_in_mode]; exact ht
    rw [inputEventHandler_mode2 _ false h1m]
    have h2m : (setState (setState t (! t.out) "button")
        (! (setState t (! t.out) "button").out) "button").cfg.in_mode = 2 := by
      rw [setState_in_mode]; exact h1m
    rw [inputEventHandler_mode2 _ true h2m]
    rw [setState_toggle_notifies, setState_toggle_notifies, setState_toggle_notifies]

theorem input_sequence_toggles_witness :
    (runChanges exMom [true, false, true]).notifies = exMom.notifies + 2 ∧
    (runChanges exEdge [true, false, true]).notifies = exEdge.notifies + 3 :=
  input_sequence_toggles exMom exEdge rfl rfl

/-- C8: after a non-empty sequence of `SetState(value, source)` calls, the
Output's level equals the last value passed and the persisted `cfg.state`
equals that value as well. -/
theorem set_state_sequence (s : SwState) (calls : List (Bool × String))
    (h : calls ≠ []) :
    (calls.foldl (fun t c => setState t c.1 c.2) s).out = (calls.getLast h).1 ∧
    (calls.foldl (fun t c => setState t c.1 c.2) s).cfg.state = (calls.getLast h).1 := by
  induction calls generalizing s with
  | nil => exact absurd rfl h
  | cons c rest ih =>
      cases rest with
      | nil =>
          simp only [List.foldl, List.getLast]
          constructor
          · exact setStateInternal_out s c.1 c.2 false
          · rw [setState, setStateInternal_cfg]
      | cons c2 r2 =>
          have hne : (c2 :: r2) ≠ [] := List.cons_ne_nil c2 r2
          have hg : (c :: c2 :: r2).getLast h = (c2 :: r2).getLast hne :=
            List.getLast_cons hne
          rw [List.foldl_cons, hg]
          exact ih (setState s c.1 c.2) hne

theorem set_state_sequence_witness :
    (([(true, "switch"), (false, "HAP")] : List (Bool × String)).foldl
        (fun t c => setState t c.1 c.2) exSt).out = false ∧
    (([(true, "switch"), (false, "HAP")] : List (Bool × String)).foldl
        (fun t c => setState t c.1 c.2) exSt).cfg.state = false := by
  have h := set_state_sequence exSt [(true, "switch"), (false, "HAP")] (by simp)
  simpa [List.getLast] using h

section ConfigLemmas

/-- The restart flag `commitRest` leaves in `*restart_required`. -/
def restRestart (cfg1 : SwCfg) (r1 : Bool) (cand : SwCfg) : Bool :=
  r1 || decide (cfg1.svc_type ≠ cand.svc_type) ||
    (decide (cfg1.in_mode ≠ cand.in_mode) &&
      decide (cfg1.in_mode = 3 ∨ cand.in_mode = 3))

theorem commitRest_eq (cfg1 : SwCfg) (r1 : Bool) (cand : SwCfg) :
    commitRest cfg1 r1 cand =
      .ok { cfg1 with
            svc_type := cand.svc_type
            in_mode := cand.in_mode
            initial_state := cand.initial_state
            auto_off := cand.auto_off
            auto_off_delay := cand.auto_off_delay } (restRestart cfg1 r1 cand) := by
  obtain ⟨n1, s1, i1, t1, a1, d1, st1, e1⟩ := cfg1
  obtain ⟨n2, s2, i2, t2, a2, d2, st2, e2⟩ := cand
  unfold commitRest restRestart
  dsimp only
  split_ifs with h1 h2 h3 <;> simp_all

theorem restRestart_iff (cfg1 : SwCfg) (r1 : Bool) (cand : SwCfg) :
    restRestart cfg1 r1 cand = true ↔
      (r1 = true ∨ cfg1.svc_type ≠ cand.svc_type ∨
        (cfg1.in_mode ≠ cand.in_mode ∧ (cfg1.in_mode = 3 ∨ cand.in_mode = 3))) := by
  unfold restRestart
  simp [Bool.or_eq_true, Bool.and_eq_true]
  tauto

theorem setConfig_ok_spec (old : SwCfg) (p : SwConfigPayload) (new : SwCfg)
    (r : Bool) (h : setConfig old p = .ok new r) :
    new.svc_type = p.svc_type.getD old.svc_type ∧
    new.in_mode = p.in_mode.getD old.in_mode ∧
    new.initial_state = p.initial_state.getD old.initial_state ∧
    new.auto_off = p.auto_off.getD old.auto_off ∧
    new.auto_off_delay = p.auto_off_delay.getD old.auto_off_delay ∧
    new.state = old.state ∧
    new.enable = old.enable ∧
    (p.name = none → new.name = old.name) ∧
    (old.name = none → new.name = none) ∧
    (r = true ↔ (new.name ≠ old.name ∨ old.svc_type ≠ new.svc_type ∨
      (old.in_mode ≠ new.in_mode ∧ (old.in_mode = 3 ∨ new.in_mode = 3)))) := by
  unfold setConfig at h
  dsimp only at h
  split_ifs at h
  unfold commitCfg at h
  rcases hnm : old.name with _ | onm <;> rw [hnm] at h <;>
    rcases hpm : p.name with _ | pnm <;> rw [hpm] at h <;> dsimp only at h
  · rw [commitRest_eq] at h
    injection h with h1 h2
    subst h1 h2
    refine ⟨by simp, by simp, by simp, by simp, by simp, by simp, by simp,
      fun _ => by simp [hnm], fun _ => by simp [hnm], ?_⟩
    rw [restRestart_iff]
    simp [hnm]
  · rw [commitRest_eq] at h
    injection h with h1 h2
    subst h1 h2
    refine ⟨by simp, by simp, by simp, by simp, by simp, by simp, by simp,
      fun hx => by simp at hx, fun _ => by simp [hnm], ?_⟩
    rw [restRestart_iff]
    simp [hnm]
  · exact absurd h (by simp)
  · by_cases he : pnm = onm
    · rw [if_pos he] at h
      rw [commitRest_eq] at h
      injection h with h1 h2
      subst h1 h2
      refine ⟨by simp, by simp, by simp, by simp, by simp, by simp, by simp,
        fun hx => by simp at hx, fun hx => by simp [hnm] at hx, ?_⟩
      rw [restRestart_iff]
      simp [hnm, he]
    · rw [if_neg he] at h
      rw [commitRest_eq] at h
      injection h with h1 h2
      subst h1 h2
      refine ⟨by simp, by simp, by simp, by simp, by simp, by simp, by simp,
        fun hx => by simp at hx, fun hx => by simp [hnm] at hx, ?_⟩
      rw [restRestart_iff]
      simp [hnm, he]

theorem setConfig_ok_of_valid (old : SwCfg) (p : SwConfigPayload)
    (hub : old.name = none ∨ p.name ≠ none)
    (hname : nameTooLong p.name = false)
    (hsvc : ¬(p.svc_type.getD old.svc_type < -1 ∨ 2 < p.svc_type.getD old.svc_type))
    (him : ¬(p.in_mode.getD old.in_mode < 0 ∨ 3 < p.in_mode.getD old.in_mode))
    (his : ¬(p.initial_state.getD old.initial_state < 0 ∨
      3 < p.initial_state.getD old.initial_state)) :
    ∃ new r, setConfig old p = .ok new r := by
  unfold setConfig
  dsimp only
  rw [if_neg (by simp [hname]), if_neg hsvc, if_neg him, if_neg his, if_neg his]
  unfold commitCfg
  rcases hnm : old.name with _ | onm
  · dsimp only
    rw [commitRest_eq]
    exact ⟨_, _, rfl⟩
  · rcases hpm : p.name with _ | pnm
    · rcases hub with hub | hub
      · rw [hnm] at hub; simp at hub
      · exact absurd hpm hub
    · dsimp only
      by_cases he : pnm = onm
      · rw [if_pos he, commitRest_eq]
        exact ⟨_, _, rfl⟩
      · rw [if_neg he, commitRest_eq]
        exact ⟨_, _, rfl⟩

end ConfigLemmas

/-- A payload whose name has 65 characters (every other field absent). -/
def pLongName : SwConfigPayload :=
  { name := some "AAAAAAAAAAAAAAAAAAAAAAAAAAAAAAAAAAAAAAAAAAAAAAAAAAAAAAAAAAAAAAAAA",
    svc_type := none, in_mode := none, initial_state := none, auto_off := none,
    auto_off_delay := none }

/-- A payload that keeps the name and switches `in_mode` from Toggle (1) to
Detached (3). -/
def pDetach : SwConfigPayload :=
  { name := some "Shelly SW", svc_type := none, in_mode := some 3,
    initial_state := none, auto_off := none, auto_off_delay := none }

/-- The configuration `pDetach` commits on top of `exCfg`. -/
def cfgDetached : SwCfg := { exCfg with in_mode := 3 }

/-- A payload that repeats the current name and sets nothing else. -/
def pKeep : SwConfigPayload :=
  { name := some "Shelly SW", svc_type := none, in_mode := none,
    initial_state := none, auto_off := none, auto_off_delay := none }

/-- A payload that only sets a negative `auto_off_delay`. -/
def pNegDelay : SwConfigPayload :=
  { name := some "Shelly SW", svc_type := none, in_mode := none,
    initial_state := none, auto_off := none, auto_off_delay := some (-5) }

/-- C2: an out-of-range config field makes `SetConfig` fail with an
InvalidArgument error naming the offending field, and the switch's stored
configuration is returned unchanged with the restart flag never written (the
`err` result carries the config as the routine left it and no flag). The four
conjuncts cover a name longer than 64 characters (in particular length 65),
`svc_type` outside [-1,2], `in_mode` outside [0,3] and `initial_state` outside
[0,3], each under the source's validation order (earlier checks passing). -/
theorem set_config_invalid (old : SwCfg) (p : SwConfigPayload) :
    (∀ n, p.name = some n → 64 < n.length →
        setConfig old p = .err old "invalid name (too long, max 64)") ∧
    (nameTooLong p.name = false →
        (p.svc_type.getD old.svc_type < -1 ∨ 2 < p.svc_type.getD old.svc_type) →
        setConfig old p = .err old "invalid svc_type") ∧
    (nameTooLong p.name = false →
        ¬(p.svc_type.getD old.svc_type < -1 ∨ 2 < p.svc_type.getD old.svc_type) →
        (p.in_mode.getD old.in_mode < 0 ∨ 3 < p.in_mode.getD old.in_mode) →
        setConfig old p = .err old "invalid in_mode") ∧
    (nameTooLong p.name = false →
        ¬(p.svc_type.getD old.svc_type < -1 ∨ 2 < p.svc_type.getD old.svc_type) →
        ¬(p.in_mode.getD old.in_mode < 0 ∨ 3 < p.in_mode.getD old.in_mode) →
        (p.initial_state.getD old.initial_state < 0 ∨
          3 < p.initial_state.getD old.initial_state) →
        setConfig old p = .err old "invalid initial_state") := by
  refine ⟨?_, ?_, ?_, ?_⟩
  · intro n hpn hlen
    have hl : nameTooLong p.name = true := by rw [hpn]; simp [nameTooLong]; omega
    unfold setConfig
    dsimp only
    rw [if_pos (by simp [hl])]
  · intro hname hsvc
    unfold setConfig
    dsimp only
    rw [if_neg (by simp [hname]), if_pos hsvc]
  · intro hname hsvc him
    unfold setConfig
    dsimp only
    rw [if_neg (by simp [hname]), if_neg hsvc, if_pos him]
  · intro hname hsvc him his
    unfold setConfig
    dsimp only
    rw [if_neg (by simp [hname]), if_neg hsvc, if_neg him, if_pos his]

theorem set_config_invalid_witness :
    setConfig exCfg pLongName = .err exCfg "invalid name (too long, max 64)" :=
  (set_config_invalid exCfg pLongName).1
    "AAAAAAAAAAAAAAAAAAAAAAAAAAAAAAAAAAAAAAAAAAAAAAAAAAAAAAAAAAAAAAAAA"
    rfl (by decide)

/-- C3: for every successful `SetConfig`, the returned `restart_required` is
true exactly when the committed name differs from the prior one, the service
type changed, or the input mode changed with Detached (3) on one side of the
change; changes confined to `initial_state`, `auto_off`, `auto_off_delay` or
an input-mode move between the three non-detached modes leave it false. -/
theorem restart_required_iff (old : SwCfg) (p : SwConfigPayload) (new : SwCfg)
    (r : Bool) (h : setConfig old p = .ok new r) :
    r = true ↔ (new.name ≠ old.name ∨ old.svc_type ≠ new.svc_type ∨
      (old.in_mode ≠ new.in_mode ∧ (old.in_mode = 3 ∨ new.in_mode = 3))) :=
  (setConfig_ok_spec old p new r h).2.2.2.2.2.2.2.2.2

theorem restart_required_iff_witness :
    (true = true ↔ (cfgDetached.name ≠ exCfg.name ∨
      exCfg.svc_type ≠ cfgDetached.svc_type ∨
      (exCfg.in_mode ≠ cfgDetached.in_mode ∧
        (exCfg.in_mode = 3 ∨ cfgDetached.in_mode = 3)))) :=
  restart_required_iff exCfg pDetach cfgDetached true (by decide)

/-- C9: a successful `SetConfig` never touches `enable` or the persisted
`state`, and every field absent from the payload keeps its prior value,
because the candidate starts as a copy of the current configuration. -/
theorem set_config_frame (old : SwCfg) (p : SwConfigPayload) (new : SwCfg)
    (r : Bool) (h : setConfig old p = .ok new r) :
    new.enable = old.enable ∧ new.state = old.state ∧
    (p.svc_type = none → new.svc_type = old.svc_type) ∧
    (p.in_mode = none → new.in_mode = old.in_mode) ∧
    (p.initial_state = none → new.initial_state = old.initial_state) ∧
    (p.auto_off = none → new.auto_off = old.auto_off) ∧
    (p.auto_off_delay = none → new.auto_off_delay = old.auto_off_delay) := by
  obtain ⟨h1, h2, h3, h4, h5, h6, h7, h8, h9, h10⟩ := setConfig_ok_spec old p new r h
  refine ⟨h7, h6, fun hx => ?_, fun hx => ?_, fun hx => ?_, fun hx => ?_,
    fun hx => ?_⟩
  · rw [h1, hx]; rfl
  · rw [h2, hx]; rfl
  · rw [h3, hx]; rfl
  · rw [h4, hx]; rfl
  · rw [h5, hx]; rfl

theorem set_config_frame_witness :
    exCfg.enable = exCfg.enable ∧ exCfg.state = exCfg.state ∧
    (pKeep.svc_type = none → exCfg.svc_type = exCfg.svc_type) ∧
    (pKeep.in_mode = none → exCfg.in_mode = exCfg.in_mode) ∧
    (pKeep.initial_state = none → exCfg.initial_state = exCfg.initial_state) ∧
    (pKeep.auto_off = none → exCfg.auto_off = exCfg.auto_off) ∧
    (pKeep.auto_off_delay = none → exCfg.auto_off_delay = exCfg.auto_off_delay) :=
  set_config_frame exCfg pKeep exCfg false (by decide)

/-- C10: `SetConfig` performs no range validation on `auto_off_delay`: any
value, negative included, passes once the other fields are in range (and the
name commit step is defined), and the value is committed verbatim. -/
theorem auto_off_delay_unvalidated (old : SwCfg) (p : SwConfigPayload) (d : Rat)
    (hub : old.name = none ∨ p.name ≠ none)
    (hname : nameTooLong p.name = false)
    (hsvc : ¬(p.svc_type.getD old.svc_type < -1 ∨ 2 < p.svc_type.getD old.svc_type))
    (him : ¬(p.in_mode.getD old.in_mode < 0 ∨ 3 < p.in_mode.getD old.in_mode))
    (his : ¬(p.initial_state.getD old.initial_state < 0 ∨
      3 < p.initial_state.getD old.initial_state))
    (hd : p.auto_off_delay = some d) :
    ∃ new r, setConfig old p = .ok new r ∧ new.auto_off_delay = d := by
  obtain ⟨new, r, hok⟩ := setConfig_ok_of_valid old p hub hname hsvc him his
  refine ⟨new, r, hok, ?_⟩
  have h5 := (setConfig_ok_spec old p new r hok).2.2.2.2.1
  rw [h5, hd]
  rfl

theorem auto_off_delay_unvalidated_witness :
    ∃ new r, setConfig exCfg pNegDelay = .ok new r ∧
      new.auto_off_delay = (-5 : Rat) :=
  auto_off_delay_unvalidated exCfg pNegDelay (-5)
    (Or.inr (by simp [pNegDelay])) (by decide) (by decide) (by decide)
    (by decide) rfl

/-- C4, counterexample: with the legacy layout flag set and neither switch
detached (both in Toggle mode 0/0 here — values ≠ 3), `CreateComponents`
passes `to_pri_acc = true` to BOTH `CreateHAPSwitch` calls (switch 2 first,
then switch 1), so switch 2 is flagged for primary attachment as well —
refuting "switch1 (and only switch1) flagged to attach to the primary
accessory"; moreover the combined component list ends up reversed to
[switch1, switch2], not [switch2, switch1]. -/
theorem composition_counterexample :
    (createComponents true 0 0 compInit).calls =
      [⟨2, true⟩, ⟨1, true⟩] ∧
    (createComponents true 0 0 compInit).accs.map HAPSwitchCall.toPriAcc =
      [true, true] ∧
    ¬((createComponents true 0 0 compInit).accs = [⟨2, false⟩, ⟨1, true⟩]) ∧
    (createComponents true 0 0 compInit).comps = [1, 2] := by
  decide

/-- C4, amended: with the legacy-compatibility flag set and neither switch in
Detached mode (3), the switches are created in reverse slot order — switch 2
then switch 1 — with BOTH calls flagged `to_pri_acc = true`, and the component
vector is then reversed, ending as [switch1, switch2]; when the flag is unset
or either switch is Detached, the switches are created independently in slot
order [switch1, switch2] with no primary attachment, regardless of the flag. -/
theorem composition_layout (legacy : Bool) (i1 i2 : Int) :
    (legacy = true → i1 ≠ 3 → i2 ≠ 3 →
        createComponents legacy i1 i2 compInit =
          { comps := [1, 2], accs := [⟨2, true⟩, ⟨1, true⟩],
            calls := [⟨2, true⟩, ⟨1, true⟩] }) ∧
    ((legacy = false ∨ i1 = 3 ∨ i2 = 3) →
        createComponents legacy i1 i2 compInit =
          { comps := [1, 2], accs := [⟨1, false⟩, ⟨2, false⟩],
            calls := [⟨1, false⟩, ⟨2, false⟩] }) := by
  constructor
  · intro hl h1 h2
    unfold createComponents
    rw [if_neg (by simp [hl, h1, h2])]
    simp [createHAPSwitch, compInit]
  · intro hcase
    unfold createComponents
    rw [if_pos ?_]
    · simp [createHAPSwitch, compInit]
    · rcases hcase with hl | h1 | h2
      · simp [hl]
      · simp [h1]
      · simp [h2]

theorem composition_layout_witness :
    (createComponents true 0 0 compInit =
      { comps := [1, 2], accs := [⟨2, true⟩, ⟨1, true⟩],
        calls := [⟨2, true⟩, ⟨1, true⟩] }) ∧
    (createComponents false 1 1 compInit =
      { comps := [1, 2], accs := [⟨1, false⟩, ⟨2, false⟩],
        calls := [⟨1, false⟩, ⟨2, false⟩] }) ∧
    (createComponents true 3 1 compInit =
      { comps := [1, 2], accs := [⟨1, false⟩, ⟨2, false⟩],
        calls := [⟨1, false⟩, ⟨2, false⟩] }) :=
  ⟨(composition_layout true 0 0).1 rfl (by decide) (by decide),
   (composition_layout false 1 1).2 (Or.inl rfl),
   (composition_layout true 3 1).2 (Or.inr (Or.inl rfl))⟩

end Shelly
